import Mathlib

/-!
Shallow embedding of the emergency-call extraction core of the repository
(directory `core_api/src`): the canonical record model (`schemas.py`), the
field-wise merge and normalization pipeline (`services/canonical.py`), the
per-call session state with its debounce and throttle policies
(`services/session.py`), and the orchestration entry points (`core.py`).

Modelling conventions:
* Python `float` wall-clock timestamps (`time.time()`) are rationals.
* Python strings are Lean strings; `len` is `String.length` (both count
  Unicode code points for the character repertoire involved).
* `str.lower()` is modelled by `pyLower`, covering ASCII plus the accented
  Spanish letters that occur in this code base.
* The md5-of-sorted-json fingerprint in `should_update_convex` is modelled as
  an injective fingerprint (the record itself, wrapped in `Option` so that the
  initial `""` sentinel is `none`); the code treats hash equality as content
  equality.
* The Anthropic API call inside `extract_with_claude` is modelled by a
  `ClaudeOutcome` parameter: raised exception / transport failure, unparseable
  output, or a parsed record.  Everything downstream of that boundary is
  embedded from the source.
* The Python regular expressions used by the normalization helpers are
  embedded with a small deterministic matcher (`RElem` / `matchElems`): every
  pattern in the source is an alternation of rigid words or phrases with
  whitespace gaps, optional single letters and word-boundary anchors, for
  which greedy matching without backtracking coincides with Python's
  semantics (noted at each definition).
-/

namespace Tiqn

/-- Python `str.lower` restricted to the character repertoire of this code
base: ASCII letters via `Char.toLower`, plus accented Spanish capitals. -/
def pyLower (c : Char) : Char :=
  if c = 'Á' then 'á' else if c = 'É' then 'é' else if c = 'Í' then 'í'
  else if c = 'Ó' then 'ó' else if c = 'Ú' then 'ú' else if c = 'Ñ' then 'ñ'
  else if c = 'Ü' then 'ü' else c.toLower

/-- Python `str.upper` on the same repertoire (used by `str.title`). -/
def pyUpper (c : Char) : Char :=
  if c = 'á' then 'Á' else if c = 'é' then 'É' else if c = 'í' then 'Í'
  else if c = 'ó' then 'Ó' else if c = 'ú' then 'Ú' else if c = 'ñ' then 'Ñ'
  else if c = 'ü' then 'Ü' else c.toUpper

/-- Python regex `\s` on the characters this code can see. -/
def isPySpace (c : Char) : Bool :=
  c = ' ' ∨ c = '\t' ∨ c = '\n' ∨ c = '\r' ∨ c = '\x0b' ∨ c = '\x0c'

/-- Spanish accented letters used by the source's regex character classes. -/
def accentedLetters : List Char :=
  ['á', 'é', 'í', 'ó', 'ú', 'ñ', 'ü', 'Á', 'É', 'Í', 'Ó', 'Ú', 'Ñ', 'Ü']

/-- Python regex `\w` (word character) on this repertoire: ASCII
alphanumerics, underscore, and accented Spanish letters. -/
def isWordChar (c : Char) : Bool :=
  c.isAlphanum ∨ c = '_' ∨ accentedLetters.contains c

/-- A cased character for the purposes of Python `str.title`. -/
def isCasedChar (c : Char) : Bool :=
  c.isAlpha ∨ accentedLetters.contains c

/-- The apostrophe character (appears in the address character class). -/
def apos : Char := Char.ofNat 39

/-- The character class `[A-Za-zÁÉÍÓÚÑáéíóúñ' ]` of the address regex in
`extract_address_from_text`. -/
def isAddrLetter (c : Char) : Bool :=
  c.isAlpha ∨ (['Á', 'É', 'Í', 'Ó', 'Ú', 'Ñ', 'á', 'é', 'í', 'ó', 'ú', 'ñ'].contains c)
    ∨ c = apos ∨ c = ' '

/-- The character class `[A-Za-z0-9-]` of the address regex. -/
def isTokenChar (c : Char) : Bool :=
  c.isAlpha ∨ c.isDigit ∨ c = '-'

/-- Exact list-prefix test (Python slice comparison). -/
def isPrefixList : List Char → List Char → Bool
  | [], _ => true
  | _ :: _, [] => false
  | a :: as, b :: bs => a = b && isPrefixList as bs

/-- Python substring containment, `needle in hay`. -/
def containsSub (needle : List Char) : List Char → Bool
  | [] => needle.isEmpty
  | c :: rest => isPrefixList needle (c :: rest) || containsSub needle rest

/-- `str.lower()` over a whole string. -/
def pyLowerStr (s : String) : String := String.mk (s.data.map pyLower)

/-- Python `str.strip()` on a character list. -/
def stripChars (l : List Char) : List Char :=
  ((l.dropWhile isPySpace).reverse.dropWhile isPySpace).reverse

/-- Python `str.strip()` on a string. -/
def pyStrip (s : String) : String := String.mk (stripChars s.data)

/-- `re.sub(r"[\n\r]+", " ", ...)`: replace each run of CR/LF with one
space.  The boolean argument records whether the previous character was part
of such a run. -/
def replaceNlRunsAux : Bool → List Char → List Char
  | _, [] => []
  | prevNl, c :: rest =>
    if c = '\n' ∨ c = '\r' then
      (if prevNl then replaceNlRunsAux true rest else ' ' :: replaceNlRunsAux true rest)
    else c :: replaceNlRunsAux false rest

/-- `re.sub(r"\s+", " ", ...)`: collapse each whitespace run to one space.
The boolean argument records whether the previous character was whitespace. -/
def collapseWsAux : Bool → List Char → List Char
  | _, [] => []
  | prevWs, c :: rest =>
    if isPySpace c then
      (if prevWs then collapseWsAux true rest else ' ' :: collapseWsAux true rest)
    else c :: collapseWsAux false rest

/-- Collapse whitespace runs of a string to single spaces (no strip). -/
def collapseWs (l : List Char) : List Char := collapseWsAux false l

/-- Decimal value of a digit list (Python `int` on a digit-only match). -/
def natOfDigits (l : List Char) : Nat :=
  l.foldl (fun a c => 10 * a + (c.toNat - 48)) 0

/-- One element of an embedded regular expression: a (case-insensitively
matched) literal character, `\s+`, `\s*`, or an optional literal character
(`c?`). -/
inductive RElem where
  | lit (c : Char)
  | wsPlus
  | wsStar
  | optChar (c : Char)
  deriving DecidableEq

/-- Literal word or phrase, character by character (spaces in the source
pattern are literal single spaces). -/
def lits (s : String) : List RElem := s.data.map RElem.lit

/-- Match an embedded pattern at the head of the text and return the
remaining text.  Greedy and deterministic: in every pattern of the source
each `\s+`/`\s*` is followed by a non-space literal and each optional letter
is never a prefix of what follows, so Python's backtracking cannot produce a
different answer.  Literals compare case-insensitively (all source patterns
that need it carry `re.I`, and the rest are only applied to pre-lowercased
text, where lowering is idempotent). -/
def matchElems : List RElem → List Char → Option (List Char)
  | [], s => some s
  | RElem.lit _ :: _, [] => none
  | RElem.lit c :: ps, d :: s => if pyLower d = c then matchElems ps s else none
  | RElem.wsPlus :: _, [] => none
  | RElem.wsPlus :: ps, d :: s =>
      if isPySpace d then matchElems (RElem.wsStar :: ps) s else none
  | RElem.wsStar :: ps, [] => matchElems ps []
  | RElem.wsStar :: ps, d :: s =>
      if isPySpace d then matchElems (RElem.wsStar :: ps) s else matchElems ps (d :: s)
  | RElem.optChar _ :: ps, [] => matchElems ps []
  | RElem.optChar c :: ps, d :: s =>
      if pyLower d = c then matchElems ps s else matchElems ps (d :: s)
  termination_by p s => 2 * s.length + p.length

/-- Right word-boundary check: the text right after a match must not start
with a word character (all bounded patterns end in word characters). -/
def boundOkChars : List Char → Bool
  | [] => true
  | r :: _ => !(isWordChar r)

/-- Try a list of pattern alternatives, in source order, at the head of the
text; when `rb` is set the match must end at a word boundary (an alternative
whose trailing boundary fails is skipped, as Python's engine does). -/
def tryAltsB (rb : Bool) : List (List RElem) → List Char → Option (List Char)
  | [], _ => none
  | p :: ps, s =>
    match matchElems p s with
    | some rem => if (!rb) || boundOkChars rem then some rem else tryAltsB rb ps s
    | none => tryAltsB rb ps s

/-- `re.search` of an alternation of rigid phrases: scan left to right; at
each position try the alternatives in order.  When `lb` is set the match must
start at a word boundary; every bounded pattern of the source starts with a
word character, so the boundary holds exactly when the previous character
(tracked by the boolean) is not a word character. -/
def searchPat (lb rb : Bool) (alts : List (List RElem)) : Bool → List Char → Bool
  | _, [] => false
  | prevW, c :: rest =>
    (((!lb) || (!prevW)) && (tryAltsB rb alts (c :: rest)).isSome)
      || searchPat lb rb alts (isWordChar c) rest

/-- Search for an alternation in a whole string. -/
def searchStr (lb rb : Bool) (alts : List (List RElem)) (s : String) : Bool :=
  searchPat lb rb alts false s.data

/-- `re.sub(pattern, "", ...)` for a word-boundary-anchored alternation of
rigid phrases: leftmost, non-overlapping removal.  Fuel (one unit per
character) makes totality obvious; called with `length + 1` fuel, which is
enough since every successful match consumes at least one character. -/
def removePat (alts : List (List RElem)) : Nat → Bool → List Char → List Char
  | 0, _, s => s
  | _ + 1, _, [] => []
  | fuel + 1, prevW, c :: rest =>
    if prevW then c :: removePat alts fuel (isWordChar c) rest
    else
      match tryAltsB true alts (c :: rest) with
      | some rem => removePat alts fuel true rem
      | none => c :: removePat alts fuel (isWordChar c) rest

/-- `re.sub(pattern ++ ".*$", "", ...)`: truncate the text at the leftmost
match of one of the alternatives (no word-boundary anchors). -/
def truncatePat (alts : List (List RElem)) : List Char → List Char
  | [] => []
  | c :: rest =>
    if (tryAltsB false alts (c :: rest)).isSome then []
    else c :: truncatePat alts rest

/-! ## The record model (`schemas.py`, class `CanonicalV2`) -/

/-- `CanonicalV2` from `schemas.py`: a fixed mapping of 30 string fields,
every default empty except the triage code, whose default is `"Verde"`. -/
structure CanonicalV2 where
  nombre : String := ""
  apellido : String := ""
  sexo : String := ""
  edad : String := ""
  direccion : String := ""
  numero : String := ""
  comuna : String := ""
  depto : String := ""
  ubicacion_referencia : String := ""
  ubicacion_detalle : String := ""
  google_maps_url : String := ""
  codigo : String := "Verde"
  avdi : String := ""
  estado_respiratorio : String := ""
  consciente : String := ""
  respira : String := ""
  motivo : String := ""
  inicio_sintomas : String := ""
  cantidad_rescatistas : String := ""
  recursos_requeridos : String := ""
  estado_basal : String := ""
  let_dnr : String := ""
  historia_clinica : String := ""
  medicamentos : String := ""
  alergias : String := ""
  seguro_salud : String := ""
  aviso_conserjeria : String := ""
  signos_vitales : String := ""
  checklist_url : String := ""
  medico_turno : String := ""
  deriving DecidableEq

/-- The field names of `CanonicalV2`, i.e. the keys of `model_dump()`. -/
inductive RecordField where
  | nombre | apellido | sexo | edad
  | direccion | numero | comuna | depto
  | ubicacion_referencia | ubicacion_detalle | google_maps_url
  | codigo | avdi | estado_respiratorio | consciente | respira
  | motivo | inicio_sintomas
  | cantidad_rescatistas | recursos_requeridos
  | estado_basal | let_dnr | historia_clinica | medicamentos | alergias
  | seguro_salud | aviso_conserjeria | signos_vitales | checklist_url
  | medico_turno
  deriving DecidableEq

/-- Dictionary access `model_dump()[key]`. -/
def getField (r : CanonicalV2) : RecordField → String
  | .nombre => r.nombre
  | .apellido => r.apellido
  | .sexo => r.sexo
  | .edad => r.edad
  | .direccion => r.direccion
  | .numero => r.numero
  | .comuna => r.comuna
  | .depto => r.depto
  | .ubicacion_referencia => r.ubicacion_referencia
  | .ubicacion_detalle => r.ubicacion_detalle
  | .google_maps_url => r.google_maps_url
  | .codigo => r.codigo
  | .avdi => r.avdi
  | .estado_respiratorio => r.estado_respiratorio
  | .consciente => r.consciente
  | .respira => r.respira
  | .motivo => r.motivo
  | .inicio_sintomas => r.inicio_sintomas
  | .cantidad_rescatistas => r.cantidad_rescatistas
  | .recursos_requeridos => r.recursos_requeridos
  | .estado_basal => r.estado_basal
  | .let_dnr => r.let_dnr
  | .historia_clinica => r.historia_clinica
  | .medicamentos => r.medicamentos
  | .alergias => r.alergias
  | .seguro_salud => r.seguro_salud
  | .aviso_conserjeria => r.aviso_conserjeria
  | .signos_vitales => r.signos_vitales
  | .checklist_url => r.checklist_url
  | .medico_turno => r.medico_turno

/-- The per-key body of the merge loop in `merge_canonical_data`:
`if value and value != "Verde": existing_dict[key] = value` (a Python string
is truthy exactly when non-empty). -/
def mergeField (e v : String) : String :=
  if v ≠ "" ∧ v ≠ "Verde" then v else e

/-- `merge_canonical_data` from `services/canonical.py`: rebuild the record,
overriding each field with the incoming value when that value is non-empty
and not the `"Verde"` default sentinel. -/
def merge_canonical_data (existing new_data : CanonicalV2) : CanonicalV2 where
  nombre := mergeField existing.nombre new_data.nombre
  apellido := mergeField existing.apellido new_data.apellido
  sexo := mergeField existing.sexo new_data.sexo
  edad := mergeField existing.edad new_data.edad
  direccion := mergeField existing.direccion new_data.direccion
  numero := mergeField existing.numero new_data.numero
  comuna := mergeField existing.comuna new_data.comuna
  depto := mergeField existing.depto new_data.depto
  ubicacion_referencia := mergeField existing.ubicacion_referencia new_data.ubicacion_referencia
  ubicacion_detalle := mergeField existing.ubicacion_detalle new_data.ubicacion_detalle
  google_maps_url := mergeField existing.google_maps_url new_data.google_maps_url
  codigo := mergeField existing.codigo new_data.codigo
  avdi := mergeField existing.avdi new_data.avdi
  estado_respiratorio := mergeField existing.estado_respiratorio new_data.estado_respiratorio
  consciente := mergeField existing.consciente new_data.consciente
  respira := mergeField existing.respira new_data.respira
  motivo := mergeField existing.motivo new_data.motivo
  inicio_sintomas := mergeField existing.inicio_sintomas new_data.inicio_sintomas
  cantidad_rescatistas := mergeField existing.cantidad_rescatistas new_data.cantidad_rescatistas
  recursos_requeridos := mergeField existing.recursos_requeridos new_data.recursos_requeridos
  estado_basal := mergeField existing.estado_basal new_data.estado_basal
  let_dnr := mergeField existing.let_dnr new_data.let_dnr
  historia_clinica := mergeField existing.historia_clinica new_data.historia_clinica
  medicamentos := mergeField existing.medicamentos new_data.medicamentos
  alergias := mergeField existing.alergias new_data.alergias
  seguro_salud := mergeField existing.seguro_salud new_data.seguro_salud
  aviso_conserjeria := mergeField existing.aviso_conserjeria new_data.aviso_conserjeria
  signos_vitales := mergeField existing.signos_vitales new_data.signos_vitales
  checklist_url := mergeField existing.checklist_url new_data.checklist_url
  medico_turno := mergeField existing.medico_turno new_data.medico_turno

/-! ## Normalization helpers (`services/canonical.py`) -/

/-- `re.sub(r"[^0-9]", "", ...)`: keep only ASCII digits. -/
def filterDigits (s : String) : String := String.mk (s.data.filter Char.isDigit)

/-- Noise words removed from an address:
`\b(ayuda|emergencia|me\s+desmayo|auxilio)\b` (case-insensitive). -/
def direccionNoise : List (List RElem) :=
  [lits "ayuda", lits "emergencia", lits "me" ++ [RElem.wsPlus] ++ lits "desmayo", lits "auxilio"]

/-- The tail pattern `\s+y\s+(?:necesito|me|estoy|urgente).*$` of
`sanitize_direccion`: the `.*$` suffix always matches, so removal truncates
at the leftmost occurrence of one of these alternatives. -/
def direccionTail : List (List RElem) :=
  [[RElem.wsPlus, RElem.lit 'y', RElem.wsPlus] ++ lits "necesito",
   [RElem.wsPlus, RElem.lit 'y', RElem.wsPlus] ++ lits "me",
   [RElem.wsPlus, RElem.lit 'y', RElem.wsPlus] ++ lits "estoy",
   [RElem.wsPlus, RElem.lit 'y', RElem.wsPlus] ++ lits "urgente"]

/-- `sanitize_direccion` from `services/canonical.py`: collapse CR/LF runs,
collapse whitespace and strip, remove the noise words, truncate the
", y necesito ..." tail, strip again. -/
def sanitize_direccion (direccion : String) : String :=
  let s1 := replaceNlRunsAux false direccion.data
  let s2 := stripChars (collapseWs s1)
  let s3 := removePat direccionNoise (s2.length + 1) false s2
  let s4 := truncatePat direccionTail s3
  String.mk (stripChars s4)

/-- `\b(comuna\s+de|en\s+la\s+comuna\s+de)\b`, in source order. -/
def comunaPhrases : List (List RElem) :=
  [lits "comuna" ++ [RElem.wsPlus] ++ lits "de",
   lits "en" ++ [RElem.wsPlus] ++ lits "la" ++ [RElem.wsPlus] ++ lits "comuna"
     ++ [RElem.wsPlus] ++ lits "de"]

/-- `\b(ayuda|emergencia|urgencia)\b`. -/
def comunaNoise : List (List RElem) :=
  [lits "ayuda", lits "emergencia", lits "urgencia"]

/-- `sanitize_comuna` from `services/canonical.py`: collapse and strip, keep
the part before the first comma, remove the "comuna de" phrases and the
noise words, strip again. -/
def sanitize_comuna (comuna : String) : String :=
  let s1 := replaceNlRunsAux false comuna.data
  let s2 := stripChars (collapseWs s1)
  let s3 := stripChars (s2.takeWhile (fun c => c != ','))
  let s4 := removePat comunaPhrases (s3.length + 1) false s3
  let s5 := removePat comunaNoise (s4.length + 1) false s4
  String.mk (stripChars s5)

/-- Python `str.title`: upper-case a cased character that follows a
non-cased character, lower-case every other cased character. -/
def pyTitleAux : Bool → List Char → List Char
  | _, [] => []
  | prevCased, c :: rest =>
    if isCasedChar c then
      (if prevCased then pyLower c else pyUpper c) :: pyTitleAux true rest
    else c :: pyTitleAux false rest

/-- `capitalize_words`: `text.strip().title() if text else ""`. -/
def capitalize_words (text : String) : String :=
  if text = "" then "" else String.mk (pyTitleAux false (stripChars text.data))

/-- `normalize_yes_no` from `services/canonical.py`.  The anchored
`re.match(r"^s[ií]$", s)` is equality with "si" or "sí". -/
def normalize_yes_no (value : String) : String :=
  let s := pyStrip (pyLowerStr value)
  if s = "si" ∨ s = "sí" ∨ containsSub "si".data s.data then "si"
  else if s = "no" ∨ containsSub "no".data s.data then "no"
  else if containsSub "inconsciente".data s.data then "no"
  else if containsSub "consciente".data s.data then "si"
  else ""

/-- `\b(señora|mujer|femenina|niña)\b`. -/
def sexoFPatterns : List (List RElem) :=
  [lits "señora", lits "mujer", lits "femenina", lits "niña"]

/-- `\b(señor|hombre|masculino|niño)\b`. -/
def sexoMPatterns : List (List RElem) :=
  [lits "señor", lits "hombre", lits "masculino", lits "niño"]

/-- `normalize_sexo` from `services/canonical.py`.  The anchored
`re.match(r"^m(asculino)?$", s)` is equality with "m" or "masculino", and
likewise for "f". -/
def normalize_sexo (value transcript : String) : String :=
  let s := pyLowerStr value
  if s = "m" ∨ s = "masculino" then "M"
  else if s = "f" ∨ s = "femenino" then "F"
  else if searchStr true true sexoFPatterns transcript then "F"
  else if searchStr true true sexoMPatterns transcript then "M"
  else ""

/-- Leftmost match of `(\d{1,3})`: the first digit starts the group, which
greedily takes up to three consecutive digits (nothing follows in the
pattern, so no backtracking can occur). -/
def searchDigits13 (l : List Char) : Option Nat :=
  let afterNon := l.dropWhile (fun c => !c.isDigit)
  match afterNon with
  | [] => none
  | _ => some (natOfDigits ((afterNon.takeWhile Char.isDigit).take 3))

/-- Match `\d{1,3}\s*(?:años|año)` at this exact position with exactly `k`
digits in the group. -/
def ageSuffixAt (k : Nat) (s : List Char) : Option Nat :=
  let ds := s.take k
  if ds.length = k ∧ ds.all Char.isDigit then
    let rest := (s.drop k).dropWhile isPySpace
    if isPrefixList "años".data (rest.map pyLower) ∨ isPrefixList "año".data (rest.map pyLower)
    then some (natOfDigits ds)
    else none
  else none

/-- Greedy `\d{1,3}` with backtracking at one position: try three digits,
then two, then one. -/
def ageTranscriptAt (s : List Char) : Option Nat :=
  match ageSuffixAt 3 s with
  | some n => some n
  | none =>
    match ageSuffixAt 2 s with
    | some n => some n
    | none => ageSuffixAt 1 s

/-- Leftmost match of `(\d{1,3})\s*(?:años|año)` (with `re.I`). -/
def ageTranscriptSearch : List Char → Option Nat
  | [] => none
  | c :: rest =>
    match ageTranscriptAt (c :: rest) with
    | some n => some n
    | none => ageTranscriptSearch rest

/-- `normalize_edad` from `services/canonical.py`: a 0–120 match in the
value wins, otherwise fall through to the transcript pattern; `str(int(..))`
drops leading zeros, as `toString` on the numeral does. -/
def normalize_edad (value transcript : String) : String :=
  let fromTranscript : String :=
    match ageTranscriptSearch transcript.data with
    | some age => if age ≤ 120 then toString age else ""
    | none => ""
  match searchDigits13 value.data with
  | some age => if age ≤ 120 then toString age else fromTranscript
  | none => fromTranscript

/-- `\b(paro|inconsciente|no\s+respira|convulsi)` (left boundary only, so
"convulsi" matches as a word prefix). -/
def codigoRojoPatterns : List (List RElem) :=
  [lits "paro", lits "inconsciente", lits "no" ++ [RElem.wsPlus] ++ lits "respira",
   lits "convulsi"]

/-- `\b(dolor\s+fuerte|accidente|fractura|desmayo)` (left boundary only). -/
def codigoAmarilloPatterns : List (List RElem) :=
  [lits "dolor" ++ [RElem.wsPlus] ++ lits "fuerte", lits "accidente", lits "fractura",
   lits "desmayo"]

/-- `normalize_codigo` from `services/canonical.py`. -/
def normalize_codigo (value transcript : String) : String :=
  let s := pyLowerStr value
  if containsSub "rojo".data s.data then "Rojo"
  else if containsSub "amarillo".data s.data then "Amarillo"
  else if containsSub "verde".data s.data then "Verde"
  else
    let t := pyLowerStr transcript
    if searchStr true false codigoRojoPatterns t then "Rojo"
    else if searchStr true false codigoAmarilloPatterns t then "Amarillo"
    else "Verde"

/-- `\b(alerta|consciente|orientado)` (left boundary only). -/
def avdiAlertaPatterns : List (List RElem) :=
  [lits "alerta", lits "consciente", lits "orientado"]

/-- `responde\s+a\s+la?\s*voz`: literal "l" with an optional "a". -/
def avdiVerbalPattern : List (List RElem) :=
  [lits "responde" ++ [RElem.wsPlus] ++ lits "a"
    ++ [RElem.wsPlus, RElem.lit 'l', RElem.optChar 'a', RElem.wsStar] ++ lits "voz"]

/-- `responde\s*a\s+dolor`. -/
def avdiDolorPattern : List (List RElem) :=
  [lits "responde" ++ [RElem.wsStar] ++ lits "a" ++ [RElem.wsPlus] ++ lits "dolor"]

/-- `\b(inconsciente|no\s+responde)` (left boundary only). -/
def avdiInconscientePatterns : List (List RElem) :=
  [lits "inconsciente", lits "no" ++ [RElem.wsPlus] ++ lits "responde"]

/-- `normalize_avdi` from `services/canonical.py`. -/
def normalize_avdi (avdi consciente transcript : String) : String :=
  let v := pyStrip (pyLowerStr avdi)
  if v = "alerta" ∨ v = "verbal" ∨ v = "dolor" ∨ v = "inconsciente" then v
  else
    let t := pyLowerStr transcript
    if searchStr true false avdiAlertaPatterns t then "alerta"
    else if searchStr false false avdiVerbalPattern t then "verbal"
    else if searchStr false false avdiDolorPattern t then "dolor"
    else if searchStr true false avdiInconscientePatterns t then "inconsciente"
    else
      let normConsciente := normalize_yes_no consciente
      if normConsciente = "si" then "alerta"
      else if normConsciente = "no" then "inconsciente"
      else ""

/-- `no\s+respira|paro` (no boundary: plain substring-like search). -/
def respiratorioNoPatterns : List (List RElem) :=
  [lits "no" ++ [RElem.wsPlus] ++ lits "respira", lits "paro"]

/-- `normalize_respiratorio` from `services/canonical.py`. -/
def normalize_respiratorio (estado respira transcript : String) : String :=
  let v := pyStrip (pyLowerStr estado)
  if v = "respira" ∨ v = "no respira" then v
  else
    let normRespira := normalize_yes_no respira
    if normRespira = "si" then "respira"
    else if normRespira = "no" then "no respira"
    else
      let t := pyLowerStr transcript
      if searchStr false false respiratorioNoPatterns t then "no respira"
      else if searchStr true false [lits "respira"] t then "respira"
      else ""

/-- `STREET_COMMUNE_HINTS` from `services/canonical.py`: word-bounded,
case-insensitive street-name patterns with their communes, in source
order. -/
def streetCommuneHints : List (List RElem × String) :=
  [(lits "estoril", "Las Condes"),
   (lits "apoquindo", "Las Condes"),
   (lits "bilbao", "Las Condes"),
   (lits "las" ++ [RElem.wsPlus] ++ lits "condes", "Las Condes"),
   (lits "kennedy", "Las Condes"),
   (lits "providencia", "Providencia"),
   (lits "los" ++ [RElem.wsPlus] ++ lits "leones", "Providencia"),
   (lits "providence", "Providencia"),
   (lits "alameda", "Santiago"),
   (lits "merced", "Santiago"),
   (lits "san" ++ [RElem.wsPlus] ++ lits "pablo", "Santiago"),
   (lits "allamand", "Huechuraba"),
   (lits "vitacura", "Vitacura"),
   (lits "manquehue", "Vitacura"),
   (lits "macul", "Macul"),
   (lits "ñuble", "Ñuñoa"),
   (lits "irarrazaval", "Ñuñoa"),
   (lits "grecia", "Ñuñoa"),
   (lits "la" ++ [RElem.wsPlus] ++ lits "florida", "La Florida"),
   (lits "gran avenida", "La Cisterna")]

/-- The for/break loop over `STREET_COMMUNE_HINTS`: the first hint whose
pattern occurs in the street name. -/
def hintLookup : List (List RElem × String) → String → Option String
  | [], _ => none
  | (pat, com) :: rest, dir =>
    if searchStr true true [pat] dir then some com else hintLookup rest dir

/-- The dictionary returned by `extract_address_from_text`. -/
structure AddrParts where
  direccion : String
  numero : String
  comuna : String
  extra : String
  deriving DecidableEq

/-- The trigger phrases of `extract_address_from_text` (the spaces inside
each phrase are literal single spaces, as in the source pattern). -/
def addrTriggers : List (List RElem) :=
  [lits "vivo en", lits "estoy en", lits "estamos en", lits "la dirección es",
   lits "mi direccion es", lits "nos encontramos en", lits "ubicado en"]

/-- Leftmost match of
`(?:vivo en|...|ubicado en)\s+([^\.\!\?]+)`, returning the captured
segment.  The searched text has already had its whitespace collapsed, so the
greedy `\s+` consumes exactly one space and the capture is the maximal run
of non-terminator characters, which must be non-empty. -/
def findTriggerSegment : List Char → Option (List Char)
  | [] => none
  | c :: rest =>
    match tryAltsB false addrTriggers (c :: rest) with
    | some rem =>
      (match rem with
       | r :: rs =>
         if isPySpace r then
           let afterWs := (r :: rs).dropWhile isPySpace
           let seg := afterWs.takeWhile (fun ch => !(ch == '.' || ch == '!' || ch == '?'))
           if seg.isEmpty then findTriggerSegment rest else some seg
         else findTriggerSegment rest
       | [] => findTriggerSegment rest)
    | none => findTriggerSegment rest

/-- The lazy group `([A-Za-zÁÉÍÓÚÑáéíóúñ' ]+?)` of the detail pattern:
grow the group one class character at a time until the continuation
`\s*(\d{1,6})` can match, i.e. only spaces stand between the group and a
digit.  Returns the group and the text starting at the digits. -/
def g1Go (acc : List Char) : List Char → Option (List Char × List Char)
  | [] => none
  | c :: rest =>
    if isAddrLetter c then
      let acc2 := acc ++ [c]
      let afterWs := rest.dropWhile isPySpace
      match afterWs with
      | d :: _ => if d.isDigit then some (acc2, afterWs) else g1Go acc2 rest
      | [] => g1Go acc2 rest
    else none

/-- Leftmost start position at which the detail pattern matches. -/
def detailSearch : List Char → Option (List Char × List Char)
  | [] => none
  | c :: rest =>
    match g1Go [] (c :: rest) with
    | some r => some r
    | none => detailSearch rest

/-- Keyword alternatives of the optional "office" group, in source order. -/
def officeKeywords : List String := ["oficina", "departamento", "depto", "piso"]

/-- Try `(?:oficina|departamento|depto|piso)\s*[A-Za-z0-9-]+` at this
position (case-insensitive keywords); the captured text keeps the original
characters, spaces included, as `match.group(3)` does. -/
def tryOffice : List String → List Char → Option (List Char × List Char)
  | [], _ => none
  | kw :: rest, s1 =>
    if isPrefixList kw.data (s1.map pyLower) then
      let afterKw := s1.drop kw.length
      let ws2 := afterKw.takeWhile isPySpace
      let tok := (afterKw.drop ws2.length).takeWhile isTokenChar
      if tok.isEmpty then tryOffice rest s1
      else some (s1.take kw.length ++ ws2 ++ tok, (afterKw.drop ws2.length).drop tok.length)
    else tryOffice rest s1

/-- The optional group
`(?:\s*((?:oficina|departamento|depto|piso)\s*[A-Za-z0-9-]+))?`; the
leading `\s*` lies outside the capture. -/
def tryGroup3 (s : List Char) : Option (List Char × List Char) :=
  let ws := s.takeWhile isPySpace
  tryOffice officeKeywords (s.drop ws.length)

/-- Separator alternatives `,` / `en\s+la\s+comuna\s+de` / `comuna` of the
optional comuna group, in source order. -/
def comunaSepAlts : List (List RElem) :=
  [[RElem.lit ','],
   lits "en" ++ [RElem.wsPlus] ++ lits "la" ++ [RElem.wsPlus] ++ lits "comuna"
     ++ [RElem.wsPlus] ++ lits "de",
   lits "comuna"]

/-- The optional group
`(?:\s*(?:,|en\s+la\s+comuna\s+de|comuna)\s*([A-Za-zÁÉÍÓÚÑáéíóúñ' ]+))?`;
only the final character-class run is captured (`match.group(4)`). -/
def tryGroup4 (s : List Char) : Option (List Char) :=
  let s1 := s.dropWhile isPySpace
  match tryAltsB false comunaSepAlts s1 with
  | none => none
  | some afterSep =>
    let s2 := afterSep.dropWhile isPySpace
    let cap := s2.takeWhile isAddrLetter
    if cap.isEmpty then none else some cap

/-- `extract_address_from_text` from `services/canonical.py`: normalize
whitespace, find the trigger phrase and its segment, then run the detail
pattern; each captured group is stripped, missing groups are `""`. -/
def extract_address_from_text (text : String) : AddrParts :=
  let normalized := collapseWs text.data
  match findTriggerSegment normalized with
  | none => ⟨"", "", "", ""⟩
  | some segment =>
    match detailSearch segment with
    | none => ⟨"", "", "", ""⟩
    | some (g1, atDigits) =>
      let ds := (atDigits.takeWhile Char.isDigit).take 6
      let rest2 := atDigits.drop ds.length
      let g3rest :=
        match tryGroup3 rest2 with
        | some capRest => capRest
        | none => (([] : List Char), rest2)
      let g4 :=
        match tryGroup4 g3rest.2 with
        | some cap => cap
        | none => ([] : List Char)
      ⟨String.mk (stripChars g1), String.mk (stripChars ds),
       String.mk (stripChars g4), String.mk (stripChars g3rest.1)⟩

/-- `\b(soy|estoy|necesito|me\s+llamo|hablo|vivo|puedo|llamando)\b`. -/
def firstPersonPatterns : List (List RElem) :=
  [lits "soy", lits "estoy", lits "necesito", lits "me" ++ [RElem.wsPlus] ++ lits "llamo",
   lits "hablo", lits "vivo", lits "puedo", lits "llamando"]

/-- `is_first_person` from `services/canonical.py`. -/
def is_first_person (text : String) : Bool :=
  searchStr true true firstPersonPatterns text

/-- `", ".join(p for p in parts if p)`. -/
def joinNonempty (parts : List String) : String :=
  String.intercalate ", " (parts.filter (fun p => p != ""))

/-- `post_process_canonical` from `services/canonical.py`.  The sequential
field mutations of the Python function become a chain of `let`s computing
each final field value, assembled into one record at the end; the four
conditional fills of the address-extraction branch repeat the same outer
guard `not data.direccion or not data.numero` as the single `if` of the
source.  Note `normalize_avdi` and `normalize_respiratorio` read the
original `consciente`/`respira` values, which are normalized afterwards, as
in the source. -/
def post_process_canonical (data : CanonicalV2) (transcript : String) : CanonicalV2 :=
  let direccion1 := sanitize_direccion data.direccion
  let numero1 := filterDigits data.numero
  let comuna1 := sanitize_comuna data.comuna
  let nombre1 := capitalize_words data.nombre
  let apellido1 := capitalize_words data.apellido
  let medicoTurno1 := capitalize_words data.medico_turno
  let sexo1 := normalize_sexo data.sexo transcript
  let edad1 := normalize_edad data.edad transcript
  let codigo1 := normalize_codigo data.codigo transcript
  let avdi1 := normalize_avdi data.avdi data.consciente transcript
  let estadoResp1 := normalize_respiratorio data.estado_respiratorio data.respira transcript
  let consciente1 := normalize_yes_no data.consciente
  let respira1 := normalize_yes_no data.respira
  let comuna2 :=
    if comuna1 = "" ∨ pyLowerStr comuna1 = "santiago"
        ∨ pyLowerStr comuna1 = "región metropolitana" ∨ pyLowerStr comuna1 = "rm" then
      match hintLookup streetCommuneHints direccion1 with
      | some c => c
      | none => comuna1
    else comuna1
  let extracted := extract_address_from_text transcript
  let direccion2 :=
    if direccion1 = "" ∨ numero1 = "" then
      (if direccion1 = "" ∧ extracted.direccion ≠ "" then sanitize_direccion extracted.direccion
       else direccion1)
    else direccion1
  let numero2 :=
    if direccion1 = "" ∨ numero1 = "" then
      (if numero1 = "" ∧ extracted.numero ≠ "" then filterDigits extracted.numero else numero1)
    else numero1
  let comuna3 :=
    if direccion1 = "" ∨ numero1 = "" then
      (if comuna2 = "" ∧ extracted.comuna ≠ "" then sanitize_comuna extracted.comuna else comuna2)
    else comuna2
  let depto2 :=
    if direccion1 = "" ∨ numero1 = "" then
      (if data.depto = "" ∧ extracted.extra ≠ "" then extracted.extra else data.depto)
    else data.depto
  let googleMapsUrl2 :=
    if direccion2 ≠ "" ∨ numero2 ≠ "" ∨ comuna3 ≠ "" then
      "https://www.google.com/maps/search/?api=1&query=" ++
        joinNonempty [direccion2, numero2, comuna3, "Santiago, Chile"]
    else data.google_maps_url
  let consciente2 :=
    if consciente1 = "" ∧ is_first_person transcript
        ∧ containsSub "inconsciente".data (pyLowerStr transcript).data = false then "si"
    else consciente1
  let respira2 :=
    if respira1 = "" ∧ is_first_person transcript
        ∧ containsSub "no respira".data (pyLowerStr transcript).data = false then "si"
    else respira1
  let motivo2 := if data.motivo = "" then transcript.take 500 else data.motivo
  { data with
    direccion := direccion2, numero := numero2, comuna := comuna3, depto := depto2,
    nombre := nombre1, apellido := apellido1, medico_turno := medicoTurno1,
    sexo := sexo1, edad := edad1, codigo := codigo1, avdi := avdi1,
    estado_respiratorio := estadoResp1, consciente := consciente2, respira := respira2,
    google_maps_url := googleMapsUrl2, motivo := motivo2 }

/-! ## Session state (`services/session.py`) -/

/-- The mutable state of `CallSession.__init__`.  The
`last_convex_canonical_hash` field holds the fingerprint of the last
published record (`none` models the initial `""` sentinel). -/
structure CallSession where
  session_id : String
  full_transcript : String
  canonical_data : CanonicalV2
  created_at : ℚ
  last_updated : ℚ
  chunk_count : ℕ
  last_extraction_time : ℚ
  last_extraction_length : ℕ
  last_convex_update_time : ℚ
  last_convex_canonical_hash : Option CanonicalV2
  live_transcript : String
  last_interim_text : String
  last_interim_update_time : ℚ
  deriving DecidableEq

/-- A fresh session, `CallSession(session_id)` constructed at wall-clock
time `now` (in the source `created_at` and `last_updated` are two
consecutive `time.time()` reads). -/
def newCallSession (sessionId : String) (now : ℚ) : CallSession where
  session_id := sessionId
  full_transcript := ""
  canonical_data := { }
  created_at := now
  last_updated := now
  chunk_count := 0
  last_extraction_time := 0
  last_extraction_length := 0
  last_convex_update_time := 0
  last_convex_canonical_hash := none
  live_transcript := ""
  last_interim_text := ""
  last_interim_update_time := 0

/-- `CallSession.add_transcript_chunk`: a no-op on a falsy (empty) chunk,
otherwise append space-separated, bump bookkeeping, and reset the live
transcript to the finalized transcript. -/
def add_transcript_chunk (s : CallSession) (chunk : String) (now : ℚ) : CallSession :=
  if chunk = "" then s
  else
    let newFull := if s.full_transcript ≠ "" then s.full_transcript ++ " " ++ chunk else chunk
    { s with
      full_transcript := newFull
      last_updated := now
      chunk_count := s.chunk_count + 1
      live_transcript := newFull
      last_interim_text := "" }

/-- `CallSession.update_interim_transcript`. -/
def update_interim_transcript (s : CallSession) (interimText : String) (now : ℚ) :
    CallSession × Bool :=
  if interimText = "" then (s, false)
  else
    let newLive :=
      if s.full_transcript ≠ "" then s.full_transcript ++ " " ++ interimText else interimText
    if newLive = s.live_transcript then (s, false)
    else
      ({ s with
          live_transcript := newLive
          last_interim_text := interimText
          last_interim_update_time := now
          last_updated := now }, true)

/-- `CallSession.update_canonical`. -/
def update_canonical (s : CallSession) (newData : CanonicalV2) (now : ℚ) : CallSession :=
  { s with canonical_data := newData, last_updated := now }

/-- The `critical_keywords` list of `should_extract_with_claude`. -/
def criticalKeywords : List String :=
  ["emergencia", "direccion", "edad", "inconsciente", "no respira", "paro"]

/-- `any(kw in chunk_text.lower() for kw in critical_keywords)`. -/
def containsCriticalKeyword (chunkText : String) : Bool :=
  criticalKeywords.any (fun kw => containsSub kw.data (pyLowerStr chunkText).data)

/-- `CallSession.should_extract_with_claude` (the debounce policy).  The
`chars_since_last` subtraction is over Python ints, hence over `ℤ`. -/
def should_extract_with_claude (s : CallSession) (chunkText : String) (now : ℚ)
    (minInterval : ℚ) (minChars : ℕ) : Bool :=
  if s.last_extraction_time = 0 then true
  else if containsCriticalKeyword chunkText then true
  else if now - s.last_extraction_time < minInterval then false
  else if (minChars : ℤ) ≤ (s.full_transcript.length : ℤ) - (s.last_extraction_length : ℤ) then
    true
  else false

/-- `CallSession.should_update_convex` (the throttle policy).  The md5
content hash of the sorted-json dump is modelled injectively by the record
itself; the single `now` stands for the one `time.time()` read of the
method.  The guard `(data_changed and enough_time_passed) or force_update`
is inlined. -/
def should_update_convex (s : CallSession) (canonical : CanonicalV2) (now : ℚ)
    (minInterval : ℚ) : CallSession × Bool :=
  if s.last_convex_update_time = 0 then
    ({ s with last_convex_update_time := now, last_convex_canonical_hash := some canonical },
      true)
  else if (some canonical ≠ s.last_convex_canonical_hash
        ∧ minInterval ≤ now - s.last_convex_update_time)
      ∨ (10 : ℚ) ≤ now - s.last_convex_update_time then
    ({ s with last_convex_update_time := now, last_convex_canonical_hash := some canonical },
      true)
  else (s, false)

/-! ## Orchestration (`core.py`) -/

/-- Outcome of the Claude call inside `extract_with_claude`: a raised
exception (transport failure), a response whose JSON cannot be parsed, or
the successfully parsed record `CanonicalV2(**canonical_dict)`. -/
inductive ClaudeOutcome where
  | exception
  | unparseable
  | parsed (r : CanonicalV2)
  deriving DecidableEq

/-- `extract_with_claude` from `services/canonical.py`, relative to the
Claude outcome.  On an exception or a parse failure it returns
`existing_canonical or CanonicalV2()` — a pydantic model is always truthy,
so this is the existing record whenever one was passed; on success it merges
into the existing record and post-processes with the chunk text.  The full
transcript only feeds the prompt, so it does not influence the result. -/
def extract_with_claude (transcriptChunk : String) (fullTranscript : String)
    (existingCanonical : Option CanonicalV2) (outcome : ClaudeOutcome) : CanonicalV2 :=
  match outcome, fullTranscript with
  | .exception, _ => existingCanonical.getD { }
  | .unparseable, _ => existingCanonical.getD { }
  | .parsed newCanonical, _ =>
    let merged :=
      match existingCanonical with
      | some e => merge_canonical_data e newCanonical
      | none => newCanonical
    post_process_canonical merged transcriptChunk

/-- Python truthiness of the optional `dispatcher_id` string. -/
def pyTruthyOpt : Option String → Bool
  | none => false
  | some s => s != ""

/-- The observable outcome of `process_text_chunk`: whether extraction ran,
the record it produced, and whether a Convex publish was attempted. -/
structure ProcessResult where
  extracted : Bool
  canonical : CanonicalV2
  convexAttempted : Bool
  deriving DecidableEq

/-- `process_text_chunk` from `core.py`, for the session of the given id
(the registry get-or-create step is modelled separately): append the chunk,
run the debounce policy with the defaults (5 s, 50 chars); on extraction
update the bookkeeping (`last_extraction_time`, `last_extraction_length`)
and apply the extracted record — note the source does this whether or not
the Claude call failed, since `extract_with_claude` swallows its own
exceptions; finally run the throttle policy (default 3 s) when Convex
updating is requested, configured, and a dispatcher id is present.  All
`time.time()` reads within the one call are the single `now`. -/
def process_text_chunk (session : CallSession) (chunkText : String) (now : ℚ)
    (outcome : ClaudeOutcome) (updateConvex convexConfigured : Bool)
    (dispatcherId : Option String) : CallSession × ProcessResult :=
  let s1 := add_transcript_chunk session chunkText now
  let shouldEx := should_extract_with_claude s1 chunkText now 5 50
  let updatedCanonical :=
    if shouldEx then
      extract_with_claude chunkText s1.full_transcript (some s1.canonical_data) outcome
    else s1.canonical_data
  let s2 :=
    if shouldEx then
      update_canonical
        { s1 with
          last_extraction_time := now
          last_extraction_length := s1.full_transcript.length }
        updatedCanonical now
    else s1
  let doConvex := updateConvex && convexConfigured && pyTruthyOpt dispatcherId
  let s3 := if doConvex then (should_update_convex s2 updatedCanonical now 3).1 else s2
  let convexAttempted :=
    if doConvex then (should_update_convex s2 updatedCanonical now 3).2 else false
  (s3, { extracted := shouldEx, canonical := updatedCanonical,
         convexAttempted := convexAttempted })

/-- The `SessionManager` registry: a dictionary keyed by session id. -/
abbrev Registry := String → Option CallSession

/-- `SessionManager.remove_session` (`dict.pop(session_id, None)`). -/
def remove_session (reg : Registry) (sessionId : String) : Registry × Option CallSession :=
  match reg sessionId with
  | none => (reg, none)
  | some s => (fun x => if x = sessionId then none else reg x, some s)

/-- The final data returned by `end_session`, with the number of
`save_emergency_call` attempts performed. -/
structure EndResult where
  publishAttempts : ℕ
  fullTranscript : String
  canonical : CanonicalV2
  deriving DecidableEq

/-- `end_session` from `core.py`: pop the session (returning `None` for an
unknown id, never raising), then — when final saving is enabled, the Convex
sink is configured, and a dispatcher id is present — perform exactly one
`save_emergency_call` attempt (the sink call sits in a try/except, so its
own failure is caught); when the dispatcher id is missing the save is
skipped with an error payload and no attempt is made. -/
def end_session (reg : Registry) (sessionId : String) (saveToConvex convexConfigured : Bool)
    (dispatcherId : Option String) : Registry × Option EndResult :=
  match remove_session reg sessionId with
  | (reg1, none) => (reg1, none)
  | (reg1, some session) =>
    let attempts : ℕ :=
      if saveToConvex && convexConfigured then (if pyTruthyOpt dispatcherId then 1 else 0)
      else 0
    (reg1, some ⟨attempts, session.full_transcript, session.canonical_data⟩)

/-- Modelled from the spec (claim C8 and section 4.2): the recomputation
rule "finalized transcript + one space + text, or just the text when the
finalized transcript is empty". -/
def specRecomputeLive (s : CallSession) (text : String) : String :=
  if s.full_transcript = "" then text else s.full_transcript ++ " " ++ text

/-! ## Concrete scenario data used by individual claims -/

/-- First fragment of the spec's end-to-end scenario. -/
def scenarioChunk1 : String := "Hola, necesito ayuda"

/-- Second fragment of the spec's end-to-end scenario. -/
def scenarioChunk2 : String := "mi dirección es Apoquindo 4500"

/-- The session after the first scenario fragment is processed at wall-clock
time `t`: extraction runs (cold start) and the Claude response parses to an
all-empty record, as the scenario expects. -/
def scenarioSession (t : ℚ) : CallSession :=
  (process_text_chunk (newCallSession "s1" t) scenarioChunk1 t (ClaudeOutcome.parsed { })
    false false none).1

/-- A record with a complete address and a non-conforming sex value. -/
def c7record : CanonicalV2 := { direccion := "Zzz", numero := "123", sexo := "x" }

/-- A session whose live transcript carries a pending interim tail beyond
the finalized transcript. -/
def c8session : CallSession :=
  { newCallSession "s1" 0 with full_transcript := "a", live_transcript := "a b" }

/-- A registry holding one fresh session under id "s1". -/
def c9registry : Registry :=
  fun x => if x = "s1" then some (newCallSession "s1" 7) else none

end Tiqn

namespace Tiqn

theorem mergeField_self (x : String) : mergeField x x = x := by
  unfold mergeField; split <;> rfl

/-- Claim C1: `merge_canonical_data` is a pure total function; on every pair
of records and every field, the merged field equals the incoming value when
that value is non-empty and differs from the `"Verde"` default sentinel, and
equals the existing value otherwise. -/
theorem merge_canonical_data_fieldwise (existing incoming : CanonicalV2) (f : RecordField) :
    getField (merge_canonical_data existing incoming) f =
      if getField incoming f ≠ "" ∧ getField incoming f ≠ "Verde" then getField incoming f
      else getField existing f := by
  cases f <;> rfl

/-- Claim C2: merge is idempotent, and monotone in information: a non-empty
existing field is kept whenever the incoming field is empty. -/
theorem merge_canonical_data_idempotent_monotone :
    (∀ R : CanonicalV2, merge_canonical_data R R = R) ∧
    (∀ (existing incoming : CanonicalV2) (f : RecordField),
      getField existing f ≠ "" → getField incoming f = "" →
      getField (merge_canonical_data existing incoming) f = getField existing f) := by
  constructor
  · intro R
    cases R
    simp only [merge_canonical_data, mergeField_self]
  · intro e i f _ hinc
    cases f <;> simp only [getField] at hinc ⊢ <;>
      simp [merge_canonical_data, mergeField, hinc]

/-- Witness for C2 at concrete records. -/
theorem merge_canonical_data_idempotent_monotone_witness :
    (merge_canonical_data { nombre := "Ana" } { nombre := "Ana" } = { nombre := "Ana" }) ∧
    (getField ({ nombre := "Ana" } : CanonicalV2) .nombre ≠ "" ∧
      getField ({ } : CanonicalV2) .nombre = "" ∧
      getField (merge_canonical_data { nombre := "Ana" } { }) .nombre =
        getField ({ nombre := "Ana" } : CanonicalV2) .nombre) :=
  ⟨merge_canonical_data_idempotent_monotone.1 { nombre := "Ana" },
    by decide,
    by decide,
    merge_canonical_data_idempotent_monotone.2 { nombre := "Ana" } { } .nombre
      (by decide) (by decide)⟩

/-- Claim C3: the debounce decision follows the precedence cold start /
urgency keyword / rate limit / accumulated characters, with the stated
outcomes (the defaults used by `process_text_chunk` are 5 seconds and 50
characters; "no extraction has ever run" is the `last_extraction_time == 0`
sentinel, unreachable by `time.time()`). -/
theorem should_extract_with_claude_precedence (s : CallSession) (chunk : String)
    (now minInterval : ℚ) (minChars : ℕ) :
    (s.last_extraction_time = 0 →
      should_extract_with_claude s chunk now minInterval minChars = true) ∧
    (s.last_extraction_time ≠ 0 → containsCriticalKeyword chunk = true →
      should_extract_with_claude s chunk now minInterval minChars = true) ∧
    (s.last_extraction_time ≠ 0 → containsCriticalKeyword chunk = false →
      now - s.last_extraction_time < minInterval →
      should_extract_with_claude s chunk now minInterval minChars = false) ∧
    (s.last_extraction_time ≠ 0 → containsCriticalKeyword chunk = false →
      minInterval ≤ now - s.last_extraction_time →
      (minChars : ℤ) ≤ (s.full_transcript.length : ℤ) - (s.last_extraction_length : ℤ) →
      should_extract_with_claude s chunk now minInterval minChars = true) ∧
    (s.last_extraction_time ≠ 0 → containsCriticalKeyword chunk = false →
      minInterval ≤ now - s.last_extraction_time →
      (s.full_transcript.length : ℤ) - (s.last_extraction_length : ℤ) < (minChars : ℤ) →
      should_extract_with_claude s chunk now minInterval minChars = false) := by
  refine ⟨fun h0 => ?_, fun h0 hk => ?_, fun h0 hk ht => ?_, fun h0 hk ht hc => ?_,
    fun h0 hk ht hc => ?_⟩
  · simp [should_extract_with_claude, h0]
  · simp [should_extract_with_claude, h0, hk]
  · simp [should_extract_with_claude, h0, hk, ht]
  · simp [should_extract_with_claude, h0, hk, not_lt.2 ht, hc]
  · simp [should_extract_with_claude, h0, hk, not_lt.2 ht, not_le.2 hc]

/-- Witness for C3: a fresh session cold-starts extraction. -/
theorem should_extract_with_claude_precedence_witness :
    (newCallSession "s1" 1).last_extraction_time = 0 ∧
    should_extract_with_claude (newCallSession "s1" 1) "hola" 1 5 50 = true :=
  ⟨rfl, (should_extract_with_claude_precedence (newCallSession "s1" 1) "hola" 1 5 50).1 rfl⟩

theorem should_update_convex_true_iff (s : CallSession) (c : CanonicalV2) (now m : ℚ) :
    (should_update_convex s c now m).2 = true ↔
      (s.last_convex_update_time = 0 ∨
        ((some c ≠ s.last_convex_canonical_hash) ∧ m ≤ now - s.last_convex_update_time) ∨
        (10 : ℚ) ≤ now - s.last_convex_update_time) := by
  unfold should_update_convex
  by_cases h1 : s.last_convex_update_time = 0
  · rw [if_pos h1]
    simpa using Or.inl h1
  · rw [if_neg h1]
    by_cases h2 : (some c ≠ s.last_convex_canonical_hash ∧ m ≤ now - s.last_convex_update_time)
        ∨ (10 : ℚ) ≤ now - s.last_convex_update_time
    · rw [if_pos h2]
      simpa using Or.inr h2
    · rw [if_neg h2]
      constructor
      · intro hh
        exact absurd hh (by simp)
      · rintro (hh | hh | hh)
        · exact absurd hh h1
        · exact absurd (Or.inl hh) h2
        · exact absurd (Or.inr hh) h2

theorem should_update_convex_fst_of_true (s : CallSession) (c : CanonicalV2) (now m : ℚ)
    (h : (should_update_convex s c now m).2 = true) :
    (should_update_convex s c now m).1 =
      { s with last_convex_update_time := now, last_convex_canonical_hash := some c } := by
  unfold should_update_convex at h ⊢
  split_ifs at h ⊢ <;> rfl

theorem should_update_convex_fst_of_false (s : CallSession) (c : CanonicalV2) (now m : ℚ)
    (h : (should_update_convex s c now m).2 = false) :
    (should_update_convex s c now m).1 = s := by
  unfold should_update_convex at h ⊢
  split_ifs at h ⊢
  rfl

theorem should_update_convex_suppression (s : CallSession) (c : CanonicalV2) (m t0 : ℚ)
    (ht0 : 0 < t0) (hcold : s.last_convex_update_time = 0) :
    (should_update_convex ((should_update_convex s c t0 m).1) c (t0 + 1) m).2 = false := by
  have hstate : (should_update_convex s c t0 m).1 =
      { s with last_convex_update_time := t0, last_convex_canonical_hash := some c } := by
    unfold should_update_convex
    rw [if_pos hcold]
  rw [hstate]
  unfold should_update_convex
  rw [if_neg ?hne, if_neg ?hg]
  case hne =>
    show ¬ (t0 = 0)
    exact ne_of_gt ht0
  case hg =>
    intro hguard
    have hproj1 :
        ({ s with last_convex_update_time := t0, last_convex_canonical_hash := some c }
          : CallSession).last_convex_update_time = t0 := rfl
    have hproj2 :
        ({ s with last_convex_update_time := t0, last_convex_canonical_hash := some c }
          : CallSession).last_convex_canonical_hash = some c := rfl
    rw [hproj1, hproj2] at hguard
    rcases hguard with ⟨hne, _⟩ | hforce
    · exact hne rfl
    · linarith

/-- Claim C4: the throttle decision returns true exactly on cold start, on a
changed fingerprint after the minimum interval, or on the 10-second
heartbeat; on true it re-anchors both the timestamp and the fingerprint
unconditionally, on false it leaves the session unchanged; and — for the
positive wall-clock times `time.time()` produces — an unchanged record
published at some instant is not republished one second later. -/
theorem should_update_convex_spec (s : CallSession) (c : CanonicalV2) (now minInterval : ℚ) :
    ((should_update_convex s c now minInterval).2 = true ↔
      (s.last_convex_update_time = 0 ∨
        ((some c ≠ s.last_convex_canonical_hash) ∧
          minInterval ≤ now - s.last_convex_update_time) ∨
        (10 : ℚ) ≤ now - s.last_convex_update_time)) ∧
    ((should_update_convex s c now minInterval).2 = true →
      (should_update_convex s c now minInterval).1 =
        { s with last_convex_update_time := now, last_convex_canonical_hash := some c }) ∧
    ((should_update_convex s c now minInterval).2 = false →
      (should_update_convex s c now minInterval).1 = s) ∧
    (∀ t0 : ℚ, 0 < t0 → s.last_convex_update_time = 0 →
      (should_update_convex ((should_update_convex s c t0 minInterval).1) c (t0 + 1)
        minInterval).2 = false) :=
  ⟨should_update_convex_true_iff s c now minInterval,
   fun h => should_update_convex_fst_of_true s c now minInterval h,
   fun h => should_update_convex_fst_of_false s c now minInterval h,
   fun t0 ht0 hcold => should_update_convex_suppression s c minInterval t0 ht0 hcold⟩

/-- Witness for C4: cold-start publish at time 5, then suppression of the
unchanged record one second later. -/
theorem should_update_convex_spec_witness :
    (should_update_convex (newCallSession "s1" 2) { } 5 3).2 = true ∧
    (0 < (5 : ℚ) ∧
      (should_update_convex ((should_update_convex (newCallSession "s1" 2) { } 5 3).1) { }
        (5 + 1) 3).2 = false) :=
  ⟨(should_update_convex_spec (newCallSession "s1" 2) { } 5 3).1.mpr (Or.inl rfl),
   by norm_num,
   (should_update_convex_spec (newCallSession "s1" 2) { } 5 3).2.2.2 5 (by norm_num) rfl⟩

/-- Claim C10: `add_transcript_chunk` with an empty (falsy) chunk leaves the
session entirely unchanged — finalized transcript, chunk count, timestamps
and live transcript included, so a pending interim tail survives. -/
theorem add_transcript_chunk_empty_noop (s : CallSession) (now : ℚ) :
    add_transcript_chunk s "" now = s := rfl

/-- Amended claim C8: an empty interim text always returns false without
mutating, even when the recomputed value would differ from the current live
transcript; for non-empty text the method returns false without mutation
exactly when the recomputed live transcript (per the spec's formula) equals
the current one, and otherwise installs it, records the interim text and its
timestamp, bumps the last-update timestamp and returns true. -/
theorem update_interim_transcript_spec (s : CallSession) (text : String) (now : ℚ) :
    (text = "" → update_interim_transcript s text now = (s, false)) ∧
    (text ≠ "" →
      (specRecomputeLive s text = s.live_transcript →
        update_interim_transcript s text now = (s, false)) ∧
      (specRecomputeLive s text ≠ s.live_transcript →
        update_interim_transcript s text now =
          ({ s with
              live_transcript := specRecomputeLive s text
              last_interim_text := text
              last_interim_update_time := now
              last_updated := now }, true))) := by
  have hrw : (if s.full_transcript ≠ "" then s.full_transcript ++ " " ++ text else text) =
      specRecomputeLive s text := by
    unfold specRecomputeLive
    by_cases h : s.full_transcript = "" <;> simp [h]
  constructor
  · intro h
    simp [update_interim_transcript, h]
  · intro hne
    constructor
    · intro heq
      simp only [update_interim_transcript]
      rw [if_neg hne, hrw, if_pos heq]
    · intro hneq
      simp only [update_interim_transcript]
      rw [if_neg hne, hrw, if_neg hneq]

/-- Witness for C8: a fresh session with interim text "x" mutates and
returns true. -/
theorem update_interim_transcript_spec_witness :
    ("x" ≠ "" ∧
      specRecomputeLive (newCallSession "s1" 1) "x" ≠ (newCallSession "s1" 1).live_transcript) ∧
    update_interim_transcript (newCallSession "s1" 1) "x" 2 =
      ({ newCallSession "s1" 1 with
          live_transcript := specRecomputeLive (newCallSession "s1" 1) "x"
          last_interim_text := "x"
          last_interim_update_time := 2
          last_updated := 2 }, true) :=
  ⟨⟨by decide, by decide⟩,
   ((update_interim_transcript_spec (newCallSession "s1" 1) "x" 2).2 (by decide)).2 (by decide)⟩

/-- Counterexample to C8 as stated: on an empty interim text the method
returns false even though the recomputed live transcript differs from the
current one, so "returns false exactly when the recomputed value equals the
current live transcript" fails. -/
theorem update_interim_transcript_counterexample :
    ¬ (((update_interim_transcript c8session "" 5).2 = false) ↔
        specRecomputeLive c8session "" = c8session.live_transcript) := by
  decide

theorem add_transcript_chunk_canonical (s : CallSession) (chunk : String) (now : ℚ) :
    (add_transcript_chunk s chunk now).canonical_data = s.canonical_data := by
  unfold add_transcript_chunk
  split <;> rfl

theorem should_update_convex_fst_canonical (s : CallSession) (c : CanonicalV2) (now m : ℚ) :
    (should_update_convex s c now m).1.canonical_data = s.canonical_data := by
  unfold should_update_convex
  split_ifs <;> rfl

theorem should_update_convex_fst_full (s : CallSession) (c : CanonicalV2) (now m : ℚ) :
    (should_update_convex s c now m).1.full_transcript = s.full_transcript := by
  unfold should_update_convex
  split_ifs <;> rfl

theorem should_update_convex_fst_extraction_time (s : CallSession) (c : CanonicalV2)
    (now m : ℚ) :
    (should_update_convex s c now m).1.last_extraction_time = s.last_extraction_time := by
  unfold should_update_convex
  split_ifs <;> rfl

theorem should_update_convex_fst_extraction_length (s : CallSession) (c : CanonicalV2)
    (now m : ℚ) :
    (should_update_convex s c now m).1.last_extraction_length = s.last_extraction_length := by
  unfold should_update_convex
  split_ifs <;> rfl

theorem extract_with_claude_failure (chunk full : String) (e : CanonicalV2)
    (outcome : ClaudeOutcome)
    (hfail : outcome = ClaudeOutcome.exception ∨ outcome = ClaudeOutcome.unparseable) :
    extract_with_claude chunk full (some e) outcome = e := by
  rcases hfail with rfl | rfl <;> rfl

/-- Amended claim C6: when the Extractor fails (transport failure or
unparseable output), fragment processing still returns (the exception is
swallowed inside `extract_with_claude`), the session keeps its prior record
value, and the fragment is appended to the transcript; however, whenever the
debounce let the extraction run, the bookkeeping — `last_extraction_time`
and the `last_extraction_length` watermark — is advanced exactly as on
success, to the failed attempt's time and to the post-append transcript
length. -/
theorem process_text_chunk_extraction_failure (s : CallSession) (chunk : String) (now : ℚ)
    (uc cc : Bool) (disp : Option String) (outcome : ClaudeOutcome)
    (hfail : outcome = ClaudeOutcome.exception ∨ outcome = ClaudeOutcome.unparseable) :
    (process_text_chunk s chunk now outcome uc cc disp).1.canonical_data = s.canonical_data ∧
    (process_text_chunk s chunk now outcome uc cc disp).2.canonical = s.canonical_data ∧
    (process_text_chunk s chunk now outcome uc cc disp).1.full_transcript =
      (add_transcript_chunk s chunk now).full_transcript ∧
    (should_extract_with_claude (add_transcript_chunk s chunk now) chunk now 5 50 = true →
      (process_text_chunk s chunk now outcome uc cc disp).1.last_extraction_time = now ∧
      (process_text_chunk s chunk now outcome uc cc disp).1.last_extraction_length =
        (add_transcript_chunk s chunk now).full_transcript.length) := by
  have hextract :
      extract_with_claude chunk (add_transcript_chunk s chunk now).full_transcript
        (some (add_transcript_chunk s chunk now).canonical_data) outcome =
      (add_transcript_chunk s chunk now).canonical_data :=
    extract_with_claude_failure _ _ _ outcome hfail
  unfold process_text_chunk
  by_cases hex :
      should_extract_with_claude (add_transcript_chunk s chunk now) chunk now 5 50 = true
  · by_cases hd : (uc && cc && pyTruthyOpt disp) = true
    · simp only [hex, hd, hextract, eq_self_iff_true, if_true]
      refine ⟨?_, add_transcript_chunk_canonical s chunk now, ?_, fun _ => ⟨?_, ?_⟩⟩
      · rw [should_update_convex_fst_canonical]
        exact add_transcript_chunk_canonical s chunk now
      · rw [should_update_convex_fst_full]
        rfl
      · rw [should_update_convex_fst_extraction_time]
        rfl
      · rw [should_update_convex_fst_extraction_length]
        rfl
    · rw [Bool.not_eq_true] at hd
      simp only [hex, hd, hextract, eq_self_iff_true, if_true, Bool.false_eq_true, if_false]
      refine ⟨add_transcript_chunk_canonical s chunk now,
        add_transcript_chunk_canonical s chunk now, rfl, fun _ => ⟨?_, ?_⟩⟩ <;> trivial
  · rw [Bool.not_eq_true] at hex
    by_cases hd : (uc && cc && pyTruthyOpt disp) = true
    · simp only [hex, hd, eq_self_iff_true, if_true, Bool.false_eq_true, if_false]
      refine ⟨?_, add_transcript_chunk_canonical s chunk now, ?_, fun hh => ?_⟩
      · rw [should_update_convex_fst_canonical]
        exact add_transcript_chunk_canonical s chunk now
      · rw [should_update_convex_fst_full]
      · simp [hex] at hh
    · rw [Bool.not_eq_true] at hd
      refine ⟨?_, ?_, ?_, fun hh => ?_⟩
      · simp only [hex, hd, Bool.false_eq_true, if_false]
        exact add_transcript_chunk_canonical s chunk now
      · simp only [hex, Bool.false_eq_true, if_false]
        exact add_transcript_chunk_canonical s chunk now
      · simp only [hex, hd, Bool.false_eq_true, if_false]
      · simp [hex] at hh

/-- Witness for C6: a failing extraction on a fresh session keeps the
default record. -/
theorem process_text_chunk_extraction_failure_witness :
    (ClaudeOutcome.exception = ClaudeOutcome.exception ∨
      ClaudeOutcome.exception = ClaudeOutcome.unparseable) ∧
    (process_text_chunk (newCallSession "s1" 50) "Hola, necesito ayuda" 100
        ClaudeOutcome.exception false false none).1.canonical_data =
      (newCallSession "s1" 50).canonical_data :=
  ⟨Or.inl rfl,
   (process_text_chunk_extraction_failure (newCallSession "s1" 50) "Hola, necesito ayuda" 100
      false false none ClaudeOutcome.exception (Or.inl rfl)).1⟩

/-- Counterexample to C6 as stated: on a failed extraction attempt the
length watermark IS advanced — from 0 to the post-append transcript length
20 — and the extraction timestamp is set to the attempt time, so "the
extraction bookkeeping's length watermark is not advanced" fails. -/
theorem extraction_failure_watermark_counterexample :
    (newCallSession "s1" 50).last_extraction_length = 0 ∧
    (process_text_chunk (newCallSession "s1" 50) "Hola, necesito ayuda" 100
        ClaudeOutcome.exception false false none).1.last_extraction_length = 20 ∧
    (process_text_chunk (newCallSession "s1" 50) "Hola, necesito ayuda" 100
        ClaudeOutcome.exception false false none).1.last_extraction_time = 100 :=
  ⟨rfl, rfl, rfl⟩

/-- Amended claim C5: in the two-fragment scenario (fresh session, first
fragment at any non-zero wall-clock time `t` with extraction running on cold
start and recording the bookkeeping, second fragment 6 seconds later), the
debounce policy does NOT trigger extraction on the second fragment: the
accented "dirección" does not contain the keyword "direccion", the 6-second
gap passes the 5-second rate limit, but only 31 < 50 new characters have
accumulated since the last extraction. -/
theorem scenario_second_fragment_not_extracted (t : ℚ) (ht : t ≠ 0) :
    (process_text_chunk (newCallSession "s1" t) scenarioChunk1 t (ClaudeOutcome.parsed { })
        false false none).2.extracted = true ∧
    (process_text_chunk (scenarioSession t) scenarioChunk2 (t + 6) (ClaudeOutcome.parsed { })
        false false none).2.extracted = false := by
  constructor
  · rfl
  · show should_extract_with_claude
        (add_transcript_chunk (scenarioSession t) scenarioChunk2 (t + 6)) scenarioChunk2
        (t + 6) 5 50 = false
    have h1 : (add_transcript_chunk (scenarioSession t) scenarioChunk2
        (t + 6)).last_extraction_time = t := rfl
    have h2 : (add_transcript_chunk (scenarioSession t) scenarioChunk2
        (t + 6)).last_extraction_length = 20 := rfl
    have h3 : (add_transcript_chunk (scenarioSession t) scenarioChunk2
        (t + 6)).full_transcript.length = 51 := rfl
    have hkw : containsCriticalKeyword scenarioChunk2 = false := by decide
    have helapsed : (t + 6) - t = (6 : ℚ) := by ring
    rw [should_extract_with_claude, h1, h2, h3, hkw, helapsed, if_neg ht]
    norm_num

/-- Witness for C5 (amended) at wall-clock time 100. -/
theorem scenario_second_fragment_witness :
    (100 : ℚ) ≠ 0 ∧
    (process_text_chunk (scenarioSession 100) scenarioChunk2 (100 + 6) (ClaudeOutcome.parsed { })
        false false none).2.extracted = false :=
  ⟨by norm_num, (scenario_second_fragment_not_extracted 100 (by norm_num)).2⟩

/-- Counterexample to C5 as stated: at wall-clock times 100 and 106, the
debounce policy evaluated on the second scenario fragment does not report
that extraction should run. -/
theorem scenario_second_fragment_counterexample :
    ¬ ((process_text_chunk (scenarioSession 100) scenarioChunk2 106 (ClaudeOutcome.parsed { })
        false false none).2.extracted = true) := by
  intro hcontra
  have hfalse : (process_text_chunk (scenarioSession 100) scenarioChunk2 106
      (ClaudeOutcome.parsed { }) false false none).2.extracted = false := by
    show should_extract_with_claude
        (add_transcript_chunk (scenarioSession 100) scenarioChunk2 106) scenarioChunk2
        106 5 50 = false
    have h1 : (add_transcript_chunk (scenarioSession 100) scenarioChunk2
        106).last_extraction_time = 100 := rfl
    have h2 : (add_transcript_chunk (scenarioSession 100) scenarioChunk2
        106).last_extraction_length = 20 := rfl
    have h3 : (add_transcript_chunk (scenarioSession 100) scenarioChunk2
        106).full_transcript.length = 51 := rfl
    have hkw : containsCriticalKeyword scenarioChunk2 = false := by decide
    rw [should_extract_with_claude, h1, h2, h3, hkw]
    rw [if_neg (by norm_num : ¬ ((100 : ℚ) = 0))]
    norm_num
  rw [hcontra] at hfalse
  exact absurd hfalse (by simp)

theorem end_session_unknown (reg : Registry) (sessionId : String) (b c : Bool)
    (disp : Option String) (h : reg sessionId = none) :
    end_session reg sessionId b c disp = (reg, none) := by
  unfold end_session remove_session
  rw [h]

/-- Amended claim C9: `end_session` on an unknown id returns an explicit
absence without touching the registry; on a known id it removes the session
from the registry and — only when final saving is enabled AND the Convex
sink is configured AND a (truthy) dispatcher id is supplied — performs
exactly one publish attempt of the final record and full transcript,
independent of any throttle state (the session, including its last-publish
bookkeeping, is arbitrary); with no truthy dispatcher id it performs zero
publish attempts even when the sink is configured. -/
theorem end_session_spec (reg : Registry) (sessionId : String)
    (saveToConvex convexConfigured : Bool) (dispatcherId : Option String) :
    (reg sessionId = none →
      end_session reg sessionId saveToConvex convexConfigured dispatcherId = (reg, none)) ∧
    (∀ s, reg sessionId = some s →
      (end_session reg sessionId saveToConvex convexConfigured dispatcherId).1 sessionId =
        none ∧
      (saveToConvex = true → convexConfigured = true → pyTruthyOpt dispatcherId = true →
        (end_session reg sessionId saveToConvex convexConfigured dispatcherId).2 =
          some ⟨1, s.full_transcript, s.canonical_data⟩) ∧
      (pyTruthyOpt dispatcherId = false →
        (end_session reg sessionId saveToConvex convexConfigured dispatcherId).2 =
          some ⟨0, s.full_transcript, s.canonical_data⟩)) := by
  constructor
  · exact end_session_unknown reg sessionId saveToConvex convexConfigured dispatcherId
  · intro s hs
    unfold end_session remove_session
    rw [hs]
    refine ⟨?_, ?_, ?_⟩
    · simp
    · intro hb hc hd
      simp [hb, hc, hd]
    · intro hd
      simp [hd]

/-- Witness for C9 (amended): with a configured sink and dispatcher "d1",
ending the one-session registry performs exactly one publish attempt. -/
theorem end_session_spec_witness :
    (c9registry "s1" = some (newCallSession "s1" 7) ∧ pyTruthyOpt (some "d1") = true) ∧
    (end_session c9registry "s1" true true (some "d1")).2 =
      some ⟨1, (newCallSession "s1" 7).full_transcript, (newCallSession "s1" 7).canonical_data⟩ :=
  ⟨⟨rfl, rfl⟩,
   (((end_session_spec c9registry "s1" true true (some "d1")).2 (newCallSession "s1" 7)
      rfl).2.1) rfl rfl rfl⟩

/-- Counterexample to C9 as stated: with the Convex sink configured and
saving enabled but no dispatcher id supplied, ending the session performs
zero publish attempts, not one. -/
theorem end_session_no_dispatcher_counterexample :
    (end_session c9registry "s1" true true none).2 =
      some { publishAttempts := 0, fullTranscript := "", canonical := { } } := rfl

theorem normalize_codigo_ne_empty (v t : String) : normalize_codigo v t ≠ "" := by
  simp only [normalize_codigo]
  split_ifs <;> decide

theorem url_append_ne_empty (q : String) :
    ("https://www.google.com/maps/search/?api=1&query=" ++ q) ≠ "" := by
  intro h
  have h2 : ("https://www.google.com/maps/search/?api=1&query=" ++ q).length = 0 := by
    rw [h]
    rfl
  rw [String.length_append] at h2
  have h48 : ("https://www.google.com/maps/search/?api=1&query=").length = 48 := rfl
  rw [h48] at h2
  omega

theorem ite_string_ne_empty {c : Prop} [inst : Decidable c] {a b : String}
    (ha : a ≠ "") (hb : b ≠ "") : (if c then a else b) ≠ "" := by
  split <;> assumption

/-- Amended claim C7: `post_process_canonical` returns the fourteen fields
it never touches verbatim; it only fills `depto` and `motivo` when they are
empty, keeping a non-empty value verbatim; `codigo` is always one of the
three triage words (never empty); and a non-empty `google_maps_url` stays
non-empty.  However the format-normalized fields (`direccion`, `numero`,
`comuna`, `nombre`, `apellido`, `medico_turno`, `sexo`, `edad`, `avdi`,
`estado_respiratorio`, `consciente`, `respira`) may be emptied when their
value does not fit the canonical vocabulary or format. -/
theorem post_process_canonical_conservative_fields (d : CanonicalV2) (t : String) :
    (d.depto ≠ "" → (post_process_canonical d t).depto = d.depto) ∧
    (d.motivo ≠ "" → (post_process_canonical d t).motivo = d.motivo) ∧
    (d.google_maps_url ≠ "" → (post_process_canonical d t).google_maps_url ≠ "") ∧
    (post_process_canonical d t).codigo ≠ "" ∧
    (post_process_canonical d t).ubicacion_referencia = d.ubicacion_referencia ∧
    (post_process_canonical d t).ubicacion_detalle = d.ubicacion_detalle ∧
    (post_process_canonical d t).inicio_sintomas = d.inicio_sintomas ∧
    (post_process_canonical d t).cantidad_rescatistas = d.cantidad_rescatistas ∧
    (post_process_canonical d t).recursos_requeridos = d.recursos_requeridos ∧
    (post_process_canonical d t).estado_basal = d.estado_basal ∧
    (post_process_canonical d t).let_dnr = d.let_dnr ∧
    (post_process_canonical d t).historia_clinica = d.historia_clinica ∧
    (post_process_canonical d t).medicamentos = d.medicamentos ∧
    (post_process_canonical d t).alergias = d.alergias ∧
    (post_process_canonical d t).seguro_salud = d.seguro_salud ∧
    (post_process_canonical d t).aviso_conserjeria = d.aviso_conserjeria ∧
    (post_process_canonical d t).signos_vitales = d.signos_vitales ∧
    (post_process_canonical d t).checklist_url = d.checklist_url := by
  refine ⟨?_, ?_, ?_, ?_, rfl, rfl, rfl, rfl, rfl, rfl, rfl, rfl, rfl, rfl, rfl, rfl, rfl, rfl⟩
  · intro h
    simp only [post_process_canonical]
    split
    · split
      · rename_i hb
        exact absurd hb.1 h
      · rfl
    · rfl
  · intro h
    simp only [post_process_canonical]
    split
    · rename_i hb
      exact absurd hb h
    · rfl
  · intro h
    simp only [post_process_canonical]
    exact ite_string_ne_empty (url_append_ne_empty _) h
  · simp only [post_process_canonical]
    exact normalize_codigo_ne_empty d.codigo t

/-- Witness for C7 (amended): a record with a non-empty `depto` keeps it
through normalization. -/
theorem post_process_canonical_conservative_fields_witness :
    ({ depto := "502" } : CanonicalV2).depto ≠ "" ∧
    (post_process_canonical { depto := "502" } "hola").depto = "502" :=
  ⟨by decide,
   (post_process_canonical_conservative_fields { depto := "502" } "hola").1 (by decide)⟩

/-- Counterexample to C7 as stated: normalization deletes corroborated
information — a record carrying the non-empty (but non-conforming) sex value
"x" comes out of `post_process_canonical` with an empty `sexo` field. -/
theorem post_process_deletes_nonempty_field_counterexample :
    c7record.sexo ≠ "" ∧ (post_process_canonical c7record "").sexo = "" :=
  ⟨by decide, rfl⟩

end Tiqn
